import Mathlib

/-!
Verification of the job-orchestration core of `src/scale.py` (VASP scaling
analysis driver).  The Python source is shallowly embedded: the sweep tables
are Lean constants, the job-specification builder is a pure function into a
record type mirroring the Batch API request, the polling loop is a fuelled
step function over an explicit active list, and the result collector is a
function of an abstract object-store map.  Remote services (Batch, GCS) are
parameters: a poll oracle `Nat → String → JobState` and a blob store
`String → BlobResult`.
-/

namespace Scale

/-- Remote job states as distinguished by the polling loop
(`batch_v1.JobStatus.State`); the loop only tests for SUCCEEDED / FAILED. -/
inductive JobState where
  | queued
  | running
  | succeeded
  | failed
deriving DecidableEq, Repr

/-- A job is terminal when the polling loop removes it (scale.py lines
212–217 test exactly SUCCEEDED and FAILED). -/
def JobState.isTerminal : JobState → Bool
  | .succeeded => true
  | .failed => true
  | _ => false

/-- One tracked entry of `job_names`: the pair `(dir_name, job_name)`
appended at submission time (scale.py lines 195, 204). -/
structure Entry where
  dirName : String
  jobName : String
deriving DecidableEq, Repr

/-- Python's `list.pop(i)`: removes and discards the element at index `i`,
raising IndexError (modelled as `none`) when `i` is out of range. -/
def popIdx (l : List α) (i : Nat) : Option (List α) :=
  if i < l.length then some (l.eraseIdx i) else none

/-- The outcome of one poll pass of the `while job_names:` loop body
(scale.py lines 210–217). `polled` records every GetJob call of the pass in
order; `classified` records every job whose terminal state was printed
(lines 213, 216); `err` is true when `job_names.pop(i)` raised IndexError. -/
structure PassOut where
  live : List Entry
  polled : List Entry
  classified : List (Entry × JobState)
  err : Bool
deriving DecidableEq, Repr

/-- Inner loop of one pass: `for i, (dir_name, job_name) in
enumerate(job_names[:])`.  The iteration runs over the pass-start snapshot
(indices paired with snapshot entries), while `pop(i)` mutates the live
list; a poll (GetJob) happens before the terminality test, and the
classification print happens before the `pop`. -/
def passStep (poll : String → JobState) :
    List (Nat × Entry) → List Entry → List Entry → List (Entry × JobState) → PassOut
  | [], live, polled, classified => ⟨live, polled, classified, false⟩
  | (i, e) :: rest, live, polled, classified =>
    let st := poll e.jobName
    let polled := polled ++ [e]
    if st.isTerminal then
      let classified := classified ++ [(e, st)]
      match popIdx live i with
      | some live2 => passStep poll rest live2 polled classified
      | none => ⟨live, polled, classified, true⟩
    else
      passStep poll rest live polled classified

/-- One full pass of the polling loop over the current `job_names`. -/
def runPass (poll : String → JobState) (live : List Entry) : PassOut :=
  passStep poll live.enum live [] []

/-- Result of running the whole `while job_names:` loop: the per-pass logs,
the final live list, whether an IndexError escaped, and whether the fuel ran
out before the list emptied (the Python loop itself has no bound). -/
structure TrackOut where
  passes : List PassOut
  live : List Entry
  crashed : Bool
  fuelOut : Bool
deriving DecidableEq, Repr

/-- Fuelled embedding of `while job_names:` (scale.py lines 209–220): at
each iteration, if the live list is nonempty, run one pass with the oracle
for the current pass number; an IndexError from `pop` aborts the loop
(propagating out of `main`).  The `sleep(60)` is irrelevant to the state. -/
def trackLoop (oracle : Nat → String → JobState) :
    Nat → Nat → List Entry → List PassOut → TrackOut
  | 0, _, live, acc => ⟨acc, live, false, !live.isEmpty⟩
  | fuel + 1, p, live, acc =>
    if live.isEmpty then ⟨acc, live, false, false⟩
    else
      let out := runPass (oracle p) live
      if out.err then ⟨acc ++ [out], out.live, true, false⟩
      else trackLoop oracle fuel (p + 1) out.live (acc ++ [out])

/-- Entry point for tracking a list of submitted jobs. -/
def track (oracle : Nat → String → JobState) (fuel : Nat) (jobs : List Entry) : TrackOut :=
  trackLoop oracle fuel 0 jobs []

/-- All GetJob calls issued during pass `p` of a tracking run. -/
def TrackOut.polledInPass (t : TrackOut) (p : Nat) : List Entry :=
  ((t.passes.get? p).map PassOut.polled).getD []

/-- All terminal classifications recorded during pass `p`. -/
def TrackOut.classifiedInPass (t : TrackOut) (p : Nat) : List (Entry × JobState) :=
  ((t.passes.get? p).map PassOut.classified).getD []

/-! ### Sweep tables (scale.py lines 42–60) -/

/-- Names of the k-point configurations, in the insertion order of the
`k_configs` dict (Python dicts iterate in insertion order). -/
def k_config_names : List String := ["2x2x6", "3x3x9", "4x4x12"]

/-- Table `nodes_list = [1, 2]`. -/
def nodes_list : List Nat := [1, 2]

/-- Table `devices = ['CPU']`. -/
def devices : List String := ["CPU"]

/-- Table `functionals = ['PBE', 'HSE06']`. -/
def functionals : List String := ["PBE", "HSE06"]

/-- Constant `node_for_bar = 1`. -/
def node_for_bar : Nat := 1

/-- Constant `gpus_per_node = 4`. -/
def gpus_per_node : Nat := 4

/-- Constant `cpus_per_node = 40`. -/
def cpus_per_node : Nat := 40

/-! ### Run matrix (scale.py lines 186–204) -/

/-- One sweep point: the run/directory name together with the node count and
device class passed to `submit_batch_job`. -/
structure RunCfg where
  dirName : String
  nodes : Nat
  device : String
deriving DecidableEq, Repr

/-- Run name `f'run_line_{device}_{k_name}_{nodes}'` (scale.py line 191/229). -/
def lineDirName (device k : String) (nodes : Nat) : String :=
  "run_line_" ++ device ++ "_" ++ k ++ "_" ++ toString nodes

/-- Run name `f'run_bar_{functional}_MySystem'` (scale.py line 200/244). -/
def barDirName (functional : String) : String :=
  "run_bar_" ++ functional ++ "_MySystem"

/-- Line-study run configurations, in the loop-nest order of scale.py lines
188–195: k-config outermost, then device, then node count. -/
def lineConfigs : List RunCfg :=
  k_config_names.flatMap fun k =>
    devices.flatMap fun dev =>
      nodes_list.map fun n => ⟨lineDirName dev k n, n, dev⟩

/-- Bar-study run configurations (scale.py lines 199–204): one per
functional, always device `GPU` at `node_for_bar` nodes. -/
def barConfigs : List RunCfg :=
  functionals.map fun f => ⟨barDirName f, node_for_bar, "GPU"⟩

/-- The whole submission matrix, in submission order: all line runs, then
all bar runs. -/
def matrixConfigs : List RunCfg := lineConfigs ++ barConfigs

/-! ### Job specification builder (scale.py lines 94–164)

The fields of the `batch_v1.Job` request that `submit_batch_job` sets are
mirrored as a record; everything the function never touches is left out. -/

/-- Fields of `batch_v1.ComputeResource` set at lines 100–107. -/
structure ComputeResource where
  cpuMilli : Nat
  memoryMib : Nat
deriving DecidableEq, Repr

/-- Accelerator request `batch_v1.AllocationPolicy.Accelerator` (lines 156–158). -/
structure Accelerator where
  accelKind : String
  count : Nat
deriving DecidableEq, Repr

/-- Fields of `batch_v1.TaskSpec` set at lines 144–147. -/
structure TaskSpec where
  maxRetryCount : Nat
  computeResource : ComputeResource
deriving DecidableEq, Repr

/-- Fields of `batch_v1.TaskGroup` set at lines 149–150. -/
structure TaskGroup where
  taskSpec : TaskSpec
  taskCount : Nat
deriving DecidableEq, Repr

/-- Instance policy `batch_v1.AllocationPolicy.InstancePolicy` (lines 153–159). -/
structure InstancePolicy where
  machineType : String
  accelerators : List Accelerator
deriving DecidableEq, Repr

/-- The submitted `batch_v1.Job` (lines 109–163): name, the task groups
appended at line 163, and the instance policies appended at line 160. -/
structure BatchJob where
  name : String
  taskGroups : List TaskGroup
  instances : List InstancePolicy
deriving DecidableEq, Repr

/-- Line 95: `ntasks = nodes * gpus_per_node if device == 'GPU' else nodes *
cpus_per_node`.  The value is computed and then never used by
`submit_batch_job`. -/
def ntasks (nodes : Nat) (device : String) : Nat :=
  if device = "GPU" then nodes * gpus_per_node else nodes * cpus_per_node

/-- The job specification `submit_batch_job` constructs and submits for a
given directory name, node count and device class (lines 94–164). -/
def buildJob (dirName : String) (nodes : Nat) (device : String) : BatchJob :=
  let _parallelism := ntasks nodes device
  let compute : ComputeResource :=
    if device = "GPU" then ⟨12000, 87040⟩ else ⟨4000, 16384⟩
  let machineType : String :=
    if device = "GPU" then "a2-highgpu-1g" else "n2-standard-4"
  let accels : List Accelerator :=
    if device = "GPU" then [⟨"nvidia-tesla-a100", 1⟩] else []
  { name := "projects/vasp-scaling-analysis/locations/us-east1/jobs/" ++ dirName
    taskGroups := [⟨⟨3, compute⟩, 1⟩]
    instances := [⟨machineType, accels⟩] }

/-- Every numeric field of the submitted specification (task counts, retry
counts, compute quotas, accelerator counts). -/
def BatchJob.numericFields (j : BatchJob) : List Nat :=
  (j.taskGroups.flatMap fun g =>
     [g.taskCount, g.taskSpec.maxRetryCount,
      g.taskSpec.computeResource.cpuMilli, g.taskSpec.computeResource.memoryMib]) ++
  (j.instances.flatMap fun ip => ip.accelerators.map Accelerator.count)

/-! ### Submission phase (scale.py lines 186–206)

`create_inputs` and the remote `create_job` call are the external effects;
the phase is parameterised by a submit outcome function.  An exception from
`create_job` propagates out of the loops (there is no try/except around
them inside `main`'s body before the top-level handler, which re-raises). -/

/-- The remote service rejecting a job specification
(`SubmissionError` of the spec; any exception from `create_job`). -/
structure SubmissionError where
  msg : String
deriving DecidableEq, Repr

/-- State accumulated by the two submission loops: directories materialized
by `create_inputs`, the `job_names` list built by the appends at lines 195
and 204, cancellation requests issued (the source contains no cancellation
call at all), and the exception that escaped, if any. -/
structure SubmitPhaseOut where
  created : List String
  submitted : List Entry
  cancelled : List String
  err : Option SubmissionError
deriving DecidableEq, Repr

/-- One submission iteration per config: `create_inputs(dir_name, ...)` then
`submit_batch_job(...)`; an exception stops the remaining iterations and
propagates (nothing is cancelled or rolled back). -/
def submitPhaseGo (submit : RunCfg → Except SubmissionError String) :
    List RunCfg → SubmitPhaseOut → SubmitPhaseOut
  | [], s => s
  | c :: rest, s =>
    let s := { s with created := s.created ++ [c.dirName] }
    match submit c with
    | .ok jobName =>
        submitPhaseGo submit rest
          { s with submitted := s.submitted ++ [⟨c.dirName, jobName⟩] }
    | .error e => { s with err := some e }

/-- The whole submission phase over the run matrix. -/
def submitPhase (submit : RunCfg → Except SubmissionError String) : SubmitPhaseOut :=
  submitPhaseGo submit matrixConfigs ⟨[], [], [], none⟩

/-! ### Object storage and the result collector (scale.py lines 225–254)

The store maps a blob key to what the collector experiences: the
existence-check returning False, the existence-check or download raising, or
the download returning a text. -/

/-- Outcome of `blob.exists()` / `blob.download_as_text()` for one key. -/
inductive BlobResult where
  | absent
  | fetchError
  | content (text : String)
deriving DecidableEq, Repr

/-- Key the container command uploads to:
`blob('{dir_name}/elapsed_time.txt')` at scale.py line 140. -/
def uploadKey (dirName : String) : String := dirName ++ "/elapsed_time.txt"

/-- Key the result collector fetches:
`blob(f'{dir_name}/elapsed_time.txt')` at scale.py lines 231 and 246. -/
def artifactKey (dirName : String) : String := dirName ++ "/elapsed_time.txt"

/-- True iff the character is a decimal digit. -/
def isDigitChar (c : Char) : Bool := c.isDigit

/-- Numeric value of a digit character. -/
def digitVal (c : Char) : Nat := c.toNat - 48

/-- Fraction digits after the decimal point: accumulates their value and
count; any non-digit is a parse failure.  (Python's `float` accepts an empty
fraction, e.g. `float('1.')`.) -/
def parseFracGo : List Char → Nat → Nat → Option (Nat × Nat)
  | [], acc, k => some (acc, k)
  | c :: cs, acc, k =>
    if isDigitChar c then parseFracGo cs (10 * acc + digitVal c) (k + 1)
    else none

/-- Digits of the integer part followed by an optional `'.'` and fraction
digits, accumulating the integer part. -/
def parseMantissa : List Char → Nat → Option ℚ
  | [], acc => some (acc : ℚ)
  | c :: cs, acc =>
    if c = '.' then
      (parseFracGo cs 0 0).map fun p => (acc : ℚ) + (p.1 : ℚ) / (10 : ℚ) ^ p.2
    else if isDigitChar c then parseMantissa cs (10 * acc + digitVal c)
    else none

/-- Unsigned decimal numeral: either `digits [. digits]` or `. digits`. -/
def parseUnsigned : List Char → Option ℚ
  | [] => none
  | c :: cs =>
    if c = '.' then
      match cs with
      | [] => none
      | _ => (parseFracGo cs 0 0).map fun p => (p.1 : ℚ) / (10 : ℚ) ^ p.2
    else if isDigitChar c then parseMantissa (c :: cs) 0
    else none

/-- Model of Python's `float(text)` on the decimal numerals the pipeline
writes and reads: optional sign, then an unsigned decimal numeral, with
exact rational semantics.  `none` models `float` raising `ValueError`.
(The builtin additionally strips whitespace and accepts exponent/inf/nan
forms, which never occur for texts written by the job command.) -/
def parsePyFloat (s : String) : Option ℚ :=
  match s.data with
  | [] => none
  | c :: cs =>
    if c = '-' then (parseUnsigned cs).map Neg.neg
    else if c = '+' then parseUnsigned cs
    else parseUnsigned (c :: cs)

/-- One collector iteration (scale.py lines 230–240 / 245–254): check
existence, download, parse; a missing blob or any exception records the
explicit absent value `none` and the loop continues. -/
def collectOne (store : String → BlobResult) (dirName : String) : Option ℚ :=
  match store (artifactKey dirName) with
  | .absent => none
  | .fetchError => none
  | .content s => parsePyFloat s

/-- Series `times_line[device][k_name]`: one appended entry per node count, in
`nodes_list` order (scale.py lines 226–240). -/
def timesLineSeries (store : String → BlobResult) (device k : String) : List (Option ℚ) :=
  nodes_list.map fun n => collectOne store (lineDirName device k n)

/-- Mapping `times_bar` as an association list in `functionals` order
(scale.py lines 242–254). -/
def timesBar (store : String → BlobResult) : List (String × Option ℚ) :=
  functionals.map fun f => (f, collectOne store (barDirName f))

/-! ### Decimal artifact texts (the content written by the job command)

The container command writes `str(elapsed_time)` to the artifact (scale.py
lines 135–137): a decimal numeral.  A `DecimalValue` is an exact such
numeral — optional sign, integer part, fraction digits — with rational
semantics. -/

/-- An exact decimal numeral: sign, integer part, fraction digits
(most significant first). -/
structure DecimalValue where
  neg : Bool
  ip : Nat
  frac : List Nat
deriving DecidableEq, Repr

/-- Well-formed: every fraction digit is an actual digit. -/
def DecimalValue.wf (d : DecimalValue) : Prop := ∀ x ∈ d.frac, x < 10

/-- The digit character for `n < 10`. -/
def digitChar (n : Nat) : Char := Char.ofNat (48 + n)

/-- Decimal digit characters of a natural number, most significant first. -/
def natDigits (n : Nat) : List Char :=
  if _h : n < 10 then [digitChar n]
  else natDigits (n / 10) ++ [digitChar (n % 10)]
decreasing_by exact Nat.div_lt_self (by omega) (by omega)

/-- The decimal text of the numeral, as `str` renders it:
`[-] digits . digits`. -/
def DecimalValue.render (d : DecimalValue) : String :=
  ⟨(if d.neg then ['-'] else []) ++ natDigits d.ip ++ '.' :: d.frac.map digitChar⟩

/-- The rational value of the numeral. -/
def DecimalValue.val (d : DecimalValue) : ℚ :=
  let mag : ℚ := (d.ip : ℚ) +
    ((d.frac.foldl (fun a x => 10 * a + x) 0 : Nat) : ℚ) / (10 : ℚ) ^ d.frac.length
  if d.neg then -mag else mag

/-- A store holding exactly one artifact: the given text at the upload key
of the given run, everything else absent. -/
def singletonStore (dirName text : String) : String → BlobResult :=
  fun k => if k = uploadKey dirName then .content text else .absent

/-! ### Chart building (scale.py lines 256–323) -/

/-- Indices `valid_indices = [idx for idx, t in enumerate(times) if t is not None]`
(line 268). -/
def validIndices (times : List (Option ℚ)) : List Nat :=
  (times.enum.filter fun p => p.2.isSome).map Prod.fst

/-- Pair each valid index with `nodes_list[idx]` and `times[idx]`
(lines 270–271); `none` models an IndexError from out-of-range indexing
(or a vacuously impossible absent entry at a valid index). -/
def linePointsGo (times : List (Option ℚ)) : List Nat → Option (List (Nat × ℚ))
  | [] => some []
  | idx :: rest =>
    match nodes_list[idx]?, times[idx]? with
    | some n, some (some t) => (linePointsGo times rest).map (fun l => (n, t) :: l)
    | _, _ => none

/-- The `(node, time)` points one line is drawn from:
`valid_nodes = [nodes_list[idx] ...]`, `valid_times = [times[idx] ...]`
(lines 270–271). -/
def linePoints (times : List (Option ℚ)) : Option (List (Nat × ℚ)) :=
  linePointsGo times (validIndices times)

/-- The rendered line figure: the plotted series (skipped entirely when its
`valid_indices` is empty, line 269), whether `figure_a.png` was saved, and
whether a no-data diagnostic was printed.  Lines 281–290 run
unconditionally: the file is always saved and there is no diagnostic. -/
structure LineFigure where
  series : List (String × List (Nat × ℚ))
  savedFile : Bool
  diagnostic : Bool
deriving DecidableEq, Repr

/-- The `(label, times)` inputs the line-figure loops run over, in nest
order (k-config outer, device inner; label `f'{device} - {k_name}'`,
line 272). -/
def lineSeriesInputs (store : String → BlobResult) : List (String × List (Option ℚ)) :=
  k_config_names.flatMap fun k =>
    devices.map fun dev => (dev ++ " - " ++ k, timesLineSeries store dev k)

/-- The plot loop body (lines 264–279): a series whose `valid_indices` is
empty is skipped; otherwise its points are assembled and plotted. -/
def buildSeries : List (String × List (Option ℚ)) → Option (List (String × List (Nat × ℚ)))
  | [] => some []
  | (lbl, ts) :: rest =>
    if (validIndices ts).isEmpty then buildSeries rest
    else
      match linePoints ts with
      | some pts => (buildSeries rest).map (fun l => (lbl, pts) :: l)
      | none => none

/-- Build the line figure from the collected line data (lines 260–290);
`none` models an IndexError while assembling a series.  The save at line
289 is unconditional and no empty-data diagnostic exists for this figure. -/
def buildLineFigure (store : String → BlobResult) : Option LineFigure :=
  (buildSeries (lineSeriesInputs store)).map fun s => ⟨s, true, false⟩

/-- The rendered bar figure (lines 293–323): bars for the present values
only; when no value is present, nothing is drawn or saved and a warning is
printed instead. -/
structure BarFigure where
  bars : List (String × ℚ)
  savedFile : Bool
  diagnostic : Bool
deriving DecidableEq, Repr

/-- Build the bar figure from the collected bar data: the non-absent
`(functional, time)` pairs (lines 297–300); `if functionals_list:` guards
drawing and saving (lines 302, 320), with the warning at line 323. -/
def buildBarFigure (store : String → BlobResult) : BarFigure :=
  let pairs := (timesBar store).filterMap fun p => p.2.map fun v => (p.1, v)
  if pairs.isEmpty then ⟨[], false, true⟩ else ⟨pairs, true, false⟩

/-! ### The main pipeline (scale.py lines 172–330) -/

/-- An exception escaping `main`'s body: a submission failure, or the
IndexError from the tracking loop's `pop`.  The top-level handler logs and
re-raises either (lines 328–330). -/
inductive MainError where
  | submission (e : SubmissionError)
  | indexError
deriving DecidableEq, Repr

/-- Everything `main` produced when it ran to completion. -/
structure MainOut where
  submitted : List Entry
  tracking : TrackOut
  lineFigure : Option LineFigure
  barFigure : BarFigure
deriving DecidableEq, Repr

/-- Function `main` in terms of the external services: submission phase, then —
only if no submission raised — the tracking loop over the submitted jobs,
then — only if tracking did not raise — collection and chart building. -/
def runMain (submit : RunCfg → Except SubmissionError String)
    (oracle : Nat → String → JobState) (store : String → BlobResult)
    (fuel : Nat) : Except MainError MainOut :=
  let sp := submitPhase submit
  match sp.err with
  | some e => .error (.submission e)
  | none =>
      let t := track oracle fuel sp.submitted
      if t.crashed then .error .indexError
      else .ok ⟨sp.submitted, t, buildLineFigure store, buildBarFigure store⟩

/-! ### Concrete scenarios used to settle the claims -/

/-- A tracked entry for a given run directory, with the job resource name
the service returns. -/
def jobEntry (dirName : String) : Entry := ⟨dirName, "jobs/" ++ dirName⟩

/-- First scenario job. -/
def entryA : Entry := jobEntry "A"

/-- Second scenario job. -/
def entryB : Entry := jobEntry "B"

/-- Third scenario job. -/
def entryC : Entry := jobEntry "C"

/-- Poll oracle: jobs A and B are already terminal at the first pass, C is
terminal from the second pass on — the remote service eventually reports a
terminal state for every job. -/
def oracleABC : Nat → String → JobState := fun p n =>
  if n = entryC.jobName then (if p = 0 then .running else .succeeded)
  else .succeeded

/-- Submit outcome: the remote service rejects run configuration #2 of the
matrix (`run_line_CPU_2x2x6_2`) with a quota error and accepts the rest. -/
def failingSubmit : RunCfg → Except SubmissionError String :=
  fun c =>
    if c.dirName = "run_line_CPU_2x2x6_2" then .error ⟨"quota exceeded"⟩
    else .ok ("jobs/" ++ c.dirName)

/-- The job name a successful submission returned (unused on failures). -/
def okVal : Except SubmissionError String → String
  | .ok n => n
  | .error _ => ""

/-- The spec's round-trip example value `1.2345`. -/
def sampleValue : DecimalValue := ⟨false, 1, [2, 3, 4, 5]⟩

/-- A store in which every existence check returns False. -/
def emptyStore : String → BlobResult := fun _ => .absent

/-! ### Helper lemmas -/

lemma isDigitChar_digitChar {x : Nat} (h : x < 10) : isDigitChar (digitChar x) = true := by
  interval_cases x <;> decide

lemma digitVal_digitChar {x : Nat} (h : x < 10) : digitVal (digitChar x) = x := by
  interval_cases x <;> decide

lemma isDigitChar_ne {c : Char} (h : isDigitChar c = true) :
    c ≠ '.' ∧ c ≠ '-' ∧ c ≠ '+' := by
  refine ⟨?_, ?_, ?_⟩ <;> · rintro rfl; revert h; decide

lemma parseFracGo_digits (ds : List Nat) (hd : ∀ x ∈ ds, x < 10) :
    ∀ acc k, parseFracGo (ds.map digitChar) acc k =
      some (ds.foldl (fun a x => 10 * a + x) acc, k + ds.length) := by
  induction ds with
  | nil => intro acc k; simp [parseFracGo]
  | cons d ds ih =>
    intro acc k
    have hd0 : d < 10 := hd d (by simp)
    simp only [List.map_cons, parseFracGo, isDigitChar_digitChar hd0, if_true,
      digitVal_digitChar hd0]
    rw [ih (fun x hx => hd x (by simp [hx]))]
    simp only [List.foldl_cons, List.length_cons]
    rw [show k + 1 + ds.length = k + (ds.length + 1) from by omega]

lemma parseMantissa_digits (cs : List Char) (hcs : ∀ c ∈ cs, isDigitChar c = true) :
    ∀ tail acc, parseMantissa (cs ++ tail) acc =
      parseMantissa tail (cs.foldl (fun a c => 10 * a + digitVal c) acc) := by
  induction cs with
  | nil => intro tail acc; simp
  | cons c cs ih =>
    intro tail acc
    have h1 : isDigitChar c = true := hcs c (by simp)
    have h2 : c ≠ '.' := (isDigitChar_ne h1).1
    simp only [List.cons_append, parseMantissa, h2, if_false, h1, if_true, List.foldl_cons]
    exact ih (fun x hx => hcs x (by simp [hx])) tail _

lemma natDigits_ne_nil (n : Nat) : natDigits n ≠ [] := by
  rw [natDigits]; split <;> simp

lemma natDigits_digits (n : Nat) : ∀ c ∈ natDigits n, isDigitChar c = true := by
  induction n using Nat.strong_induction_on with
  | _ n ih =>
    rw [natDigits]
    split
    · next h => intro c hc; simp at hc; subst hc; exact isDigitChar_digitChar h
    · next h =>
      intro c hc
      rw [List.mem_append] at hc
      rcases hc with hc | hc
      · exact ih (n / 10) (Nat.div_lt_self (by omega) (by omega)) c hc
      · simp at hc; subst hc
        exact isDigitChar_digitChar (Nat.mod_lt _ (by omega))

lemma natDigits_foldl (n : Nat) : ∀ acc,
    (natDigits n).foldl (fun a c => 10 * a + digitVal c) acc =
      acc * 10 ^ (natDigits n).length + n := by
  induction n using Nat.strong_induction_on with
  | _ n ih =>
    intro acc
    rw [natDigits]
    split
    · next h =>
      simp only [List.foldl_cons, List.foldl_nil, List.length_cons, List.length_nil,
        digitVal_digitChar h, pow_one]
      omega
    · next h =>
      rw [List.foldl_append, ih (n / 10) (Nat.div_lt_self (by omega) (by omega)) acc]
      simp only [List.foldl_cons, List.foldl_nil, List.length_append, List.length_cons,
        List.length_nil, digitVal_digitChar (Nat.mod_lt n (by omega))]
      have hdm : 10 * (n / 10) + n % 10 = n := Nat.div_add_mod n 10
      rw [pow_succ]
      ring_nf
      omega

lemma parseUnsigned_digits (cs tail : List Char) (hne : cs ≠ [])
    (hcs : ∀ c ∈ cs, isDigitChar c = true) :
    parseUnsigned (cs ++ tail) = parseMantissa (cs ++ tail) 0 := by
  cases cs with
  | nil => exact absurd rfl hne
  | cons c cs' =>
    have h1 : isDigitChar c = true := hcs c (by simp)
    have h2 : c ≠ '.' := (isDigitChar_ne h1).1
    simp only [List.cons_append, parseUnsigned, h2, if_false, h1, if_true]

lemma parseUnsigned_render_core (ip : Nat) (frac : List Nat) (hf : ∀ x ∈ frac, x < 10) :
    parseUnsigned (natDigits ip ++ '.' :: frac.map digitChar) =
      some ((ip : ℚ) +
        ((frac.foldl (fun a x => 10 * a + x) 0 : Nat) : ℚ) / (10 : ℚ) ^ frac.length) := by
  rw [parseUnsigned_digits _ _ (natDigits_ne_nil ip) (natDigits_digits ip)]
  rw [parseMantissa_digits _ (natDigits_digits ip)]
  rw [natDigits_foldl]
  simp only [Nat.zero_mul, Nat.zero_add]
  simp only [parseMantissa, if_pos rfl]
  rw [parseFracGo_digits frac hf 0 0]
  simp

lemma parse_render (d : DecimalValue) (hd : d.wf) :
    parsePyFloat d.render = some d.val := by
  obtain ⟨c, cs, hc⟩ := List.exists_cons_of_ne_nil (natDigits_ne_nil d.ip)
  have hcdig : isDigitChar c = true := by
    apply natDigits_digits d.ip; rw [hc]; simp
  have hcm : c ≠ '-' := (isDigitChar_ne hcdig).2.1
  have hcp : c ≠ '+' := (isDigitChar_ne hcdig).2.2
  have core := parseUnsigned_render_core d.ip d.frac hd
  cases hneg : d.neg
  · have hdata : d.render.data = c :: (cs ++ '.' :: d.frac.map digitChar) := by
      show ((if d.neg then ['-'] else []) ++ natDigits d.ip ++ '.' :: d.frac.map digitChar)
        = c :: (cs ++ '.' :: d.frac.map digitChar)
      rw [hneg, hc]; simp
    rw [show parsePyFloat d.render =
        (match d.render.data with
         | [] => none
         | c :: cs =>
           if c = '-' then (parseUnsigned cs).map Neg.neg
           else if c = '+' then parseUnsigned cs
           else parseUnsigned (c :: cs)) from rfl, hdata]
    simp only [hcm, if_false, hcp]
    rw [show c :: (cs ++ '.' :: d.frac.map digitChar)
        = natDigits d.ip ++ '.' :: d.frac.map digitChar from by rw [hc]; simp]
    rw [core]
    simp [DecimalValue.val, hneg]
  · have hdata : d.render.data = '-' :: (natDigits d.ip ++ '.' :: d.frac.map digitChar) := by
      show ((if d.neg then ['-'] else []) ++ natDigits d.ip ++ '.' :: d.frac.map digitChar)
        = '-' :: (natDigits d.ip ++ '.' :: d.frac.map digitChar)
      rw [hneg]; simp
    rw [show parsePyFloat d.render =
        (match d.render.data with
         | [] => none
         | c :: cs =>
           if c = '-' then (parseUnsigned cs).map Neg.neg
           else if c = '+' then parseUnsigned cs
           else parseUnsigned (c :: cs)) from rfl, hdata]
    simp only [if_pos rfl]
    rw [core]
    simp [DecimalValue.val, hneg]

lemma string_append_right_cancel {a b s : String} (h : a ++ s = b ++ s) : a = b := by
  have hdata : a.data ++ s.data = b.data ++ s.data := by
    rw [← String.data_append, ← String.data_append, h]
  have h2 := List.append_cancel_right hdata
  cases a; cases b; simp_all

lemma submitPhaseGo_ok_front (submit : RunCfg → Except SubmissionError String) :
    ∀ (pre rest : List RunCfg) (s : SubmitPhaseOut),
      (∀ x ∈ pre, (submit x).isOk = true) →
      submitPhaseGo submit (pre ++ rest) s =
        submitPhaseGo submit rest
          { s with created := s.created ++ pre.map RunCfg.dirName,
                   submitted := s.submitted ++ pre.map fun x => ⟨x.dirName, okVal (submit x)⟩ } := by
  intro pre
  induction pre with
  | nil => intro rest s _; simp
  | cons c pre ih =>
    intro rest s hpre
    have hc : (submit c).isOk = true := hpre c (by simp)
    cases hsc : submit c with
    | error e => rw [hsc] at hc; simp [Except.isOk, Except.toBool] at hc
    | ok jobName =>
      simp only [List.cons_append, submitPhaseGo, hsc, List.append_eq]
      rw [ih rest _ (fun x hx => hpre x (by simp [hx]))]
      simp [hsc, okVal, List.append_assoc]

lemma validIndices_spec (ts : List (Option ℚ)) :
    ∀ idx ∈ validIndices ts, idx < ts.length ∧ ∃ t, ts[idx]? = some (some t) := by
  intro idx hidx
  unfold validIndices at hidx
  rw [List.mem_map] at hidx
  obtain ⟨⟨i, v⟩, hmem, hfst⟩ := hidx
  rw [List.mem_filter] at hmem
  obtain ⟨henum, hsome⟩ := hmem
  rw [List.mk_mem_enum_iff_getElem?] at henum
  cases hfst
  obtain ⟨hlt, -⟩ := List.getElem?_eq_some.mp henum
  refine ⟨hlt, ?_⟩
  obtain ⟨t, ht⟩ := Option.isSome_iff_exists.mp hsome
  exact ⟨t, by rw [henum]; exact congrArg some ht⟩

lemma linePointsGo_isSome (ts : List (Option ℚ)) :
    ∀ idxs : List Nat,
      (∀ i ∈ idxs, i < nodes_list.length ∧ ∃ t, ts[i]? = some (some t)) →
      (linePointsGo ts idxs).isSome = true := by
  intro idxs
  induction idxs with
  | nil => intro _; rfl
  | cons i idxs ih =>
    intro h
    obtain ⟨hlt, t, hget⟩ := h i (by simp)
    have hn : nodes_list[i]? = some nodes_list[i] := List.getElem?_eq_getElem hlt
    simp only [linePointsGo, hn, hget]
    have := ih (fun x hx => h x (by simp [hx]))
    cases hgo : linePointsGo ts idxs with
    | none => rw [hgo] at this; simp at this
    | some l => simp

lemma timesLineSeries_length (store : String → BlobResult) (device k : String) :
    (timesLineSeries store device k).length = nodes_list.length := by
  simp [timesLineSeries]

lemma linePoints_timesLine_isSome (store : String → BlobResult) (device k : String) :
    (linePoints (timesLineSeries store device k)).isSome = true := by
  unfold linePoints
  apply linePointsGo_isSome
  intro i hi
  have h := validIndices_spec _ i hi
  exact ⟨(timesLineSeries_length store device k) ▸ h.1, h.2⟩

lemma validIndices_cons (x : Option ℚ) (ts : List (Option ℚ)) :
    validIndices (x :: ts) =
      (if x.isSome then [0] else []) ++ (validIndices ts).map (· + 1) := by
  cases hx : x.isSome <;>
    simp [validIndices, List.enum_cons', List.filter_cons, hx, List.filter_map,
      List.map_map, Function.comp_def, Prod.map]

lemma filterMap_validIndices (ts : List (Option ℚ)) :
    (validIndices ts).filterMap (fun i => ts[i]?.join) = ts.reduceOption := by
  induction ts with
  | nil => rfl
  | cons x ts ih =>
    rw [validIndices_cons]
    cases x with
    | none =>
      simp only [Option.isSome_none, Bool.false_eq_true, if_false, List.nil_append,
        List.filterMap_map, Function.comp_def, List.getElem?_cons_succ]
      rw [show List.reduceOption ((none : Option ℚ) :: ts) = ts.reduceOption from rfl]
      exact ih
    | some t =>
      rw [show ((if (some t : Option ℚ).isSome = true then [0] else []) ++
            (validIndices ts).map (· + 1)) = 0 :: (validIndices ts).map (· + 1) from rfl]
      rw [List.filterMap_cons]
      have h2 : (((some t : Option ℚ) :: ts)[0]?).join = some t := by
        rw [List.getElem?_cons_zero]; rfl
      rw [h2, List.filterMap_map]
      simp only [Function.comp_def, List.getElem?_cons_succ]
      rw [ih]
      rfl

lemma linePointsGo_snd (ts : List (Option ℚ)) :
    ∀ idxs pts, linePointsGo ts idxs = some pts →
      pts.map Prod.snd = idxs.filterMap (fun i => ts[i]?.join) := by
  intro idxs
  induction idxs with
  | nil =>
    intro pts h
    simp only [linePointsGo, Option.some.injEq] at h
    subst h
    rfl
  | cons i idxs ih =>
    intro pts h
    cases hn : nodes_list[i]? with
    | none => simp [linePointsGo, hn] at h
    | some n =>
      cases hv : ts[i]? with
      | none => simp [linePointsGo, hn, hv] at h
      | some vo =>
        cases vo with
        | none => simp [linePointsGo, hn, hv] at h
        | some t =>
          simp only [linePointsGo, hn, hv] at h
          cases hgo : linePointsGo ts idxs with
          | none => rw [hgo] at h; simp at h
          | some l =>
            rw [hgo] at h
            simp only [Option.map_some', Option.some.injEq] at h
            subst h
            rw [List.filterMap_cons]
            rw [show (ts[i]?.join) = some t from by rw [hv]; rfl]
            simp only [List.map_cons]
            rw [ih l hgo]

lemma buildSeries_isSome :
    ∀ inputs : List (String × List (Option ℚ)),
      (∀ p ∈ inputs, (linePoints p.2).isSome = true) →
      (buildSeries inputs).isSome = true := by
  intro inputs
  induction inputs with
  | nil => intro _; rfl
  | cons p inputs ih =>
    intro h
    obtain ⟨lbl, ts⟩ := p
    simp only [buildSeries]
    split
    · exact ih (fun q hq => h q (by simp [hq]))
    · cases hlp : linePoints ts with
      | none =>
        have := h (lbl, ts) (by simp)
        rw [hlp] at this
        simp at this
      | some pts =>
        have := ih (fun q hq => h q (by simp [hq]))
        cases hgo : buildSeries inputs with
        | none => rw [hgo] at this; simp at this
        | some l => simp

/-! ### Claim theorems -/

/-- C1: the claim — every entry of the active job set is removed exactly
once, in the pass in which its terminal state is first observed, and no
entry whose last observed state was non-terminal is ever removed — fails on
the code.  With three active jobs whose first poll returns (SUCCEEDED,
SUCCEEDED, RUNNING), `job_names.pop(i)` with the stale snapshot index
removes the third entry (last observed RUNNING) and leaves the second entry
(observed SUCCEEDED and logged as completed) in the active set. -/
theorem trackPass_removes_nonterminal_entry :
    (oracleABC 0 entryC.jobName).isTerminal = false ∧
    entryC ∉ (runPass (oracleABC 0) [entryA, entryB, entryC]).live ∧
    (entryB, JobState.succeeded) ∈ (runPass (oracleABC 0) [entryA, entryB, entryC]).classified ∧
    entryB ∈ (runPass (oracleABC 0) [entryA, entryB, entryC]).live ∧
    (runPass (oracleABC 0) [entryA, entryB, entryC]).polled = [entryA, entryB, entryC] := by
  decide

/-- C2: the claim — whenever the remote service eventually reports a
terminal state for every job, the tracking loop terminates with an empty
active set and exactly N classifications — fails on the code.  With two
jobs that are both SUCCEEDED at the first poll pass, the second
`job_names.pop(i)` uses stale index 1 on a one-element list and raises
IndexError, aborting the loop with one entry still active. -/
theorem trackLoop_crashes_on_two_terminal :
    (track (fun _ _ => .succeeded) 8 [entryA, entryB]).crashed = true ∧
    (track (fun _ _ => .succeeded) 8 [entryA, entryB]).live = [entryB] ∧
    (track (fun _ _ => .succeeded) 8 [entryA, entryB]).live ≠ [] := by
  decide

/-- C3: the claim — once a poll observes a job in a terminal state, no
further GetJob call is issued for that handle — fails on the code.  In the
(SUCCEEDED, SUCCEEDED, RUNNING) scenario, job B is classified SUCCEEDED in
pass 0 but survives the buggy removal, so pass 1 issues another GetJob for
it. -/
theorem getJob_repeated_after_terminal :
    (entryB, JobState.succeeded) ∈ (track oracleABC 8 [entryA, entryB, entryC]).classifiedInPass 0 ∧
    entryB ∈ (track oracleABC 8 [entryA, entryB, entryC]).polledInPass 1 := by
  decide

/-- C4: if submission raises for the k-th run configuration, the error
propagates and aborts the whole batch: inputs are materialized only up to
and including the k-th configuration, jobs are submitted only for the
configurations before the k-th and stay submitted (nothing is cancelled),
and `main` ends in the submission error, so no polling or result collection
happens. -/
theorem submission_error_aborts
    (submit : RunCfg → Except SubmissionError String)
    (pre post : List RunCfg) (c : RunCfg) (e : SubmissionError)
    (hmat : matrixConfigs = pre ++ c :: post)
    (hpre : ∀ x ∈ pre, (submit x).isOk = true)
    (hc : submit c = .error e) :
    (submitPhase submit).err = some e ∧
    (submitPhase submit).created = pre.map RunCfg.dirName ++ [c.dirName] ∧
    (submitPhase submit).submitted.map Entry.dirName = pre.map RunCfg.dirName ∧
    (submitPhase submit).cancelled = [] ∧
    ∀ oracle store fuel, runMain submit oracle store fuel = .error (.submission e) := by
  have hphase : submitPhase submit =
      { created := pre.map RunCfg.dirName ++ [c.dirName],
        submitted := pre.map fun x => ⟨x.dirName, okVal (submit x)⟩,
        cancelled := [],
        err := some e } := by
    unfold submitPhase
    rw [hmat, submitPhaseGo_ok_front submit pre (c :: post) _ hpre]
    simp only [submitPhaseGo, hc]
    simp
  refine ⟨by rw [hphase], by rw [hphase], ?_, by rw [hphase], ?_⟩
  · rw [hphase]
    simp
  · intro oracle store fuel
    simp [runMain, hphase]

/-- Witness for C4: the spec's scenario — submission of run configuration
#2 is rejected with a quota error. -/
theorem submission_error_aborts_witness :
    (submitPhase failingSubmit).err = some ⟨"quota exceeded"⟩ ∧
    (submitPhase failingSubmit).submitted.map Entry.dirName = ["run_line_CPU_2x2x6_1"] ∧
    (submitPhase failingSubmit).cancelled = [] := by
  have h := submission_error_aborts failingSubmit
    [⟨"run_line_CPU_2x2x6_1", 1, "CPU"⟩]
    [⟨"run_line_CPU_3x3x9_1", 1, "CPU"⟩, ⟨"run_line_CPU_3x3x9_2", 2, "CPU"⟩,
     ⟨"run_line_CPU_4x4x12_1", 1, "CPU"⟩, ⟨"run_line_CPU_4x4x12_2", 2, "CPU"⟩,
     ⟨"run_bar_PBE_MySystem", 1, "GPU"⟩, ⟨"run_bar_HSE06_MySystem", 1, "GPU"⟩]
    ⟨"run_line_CPU_2x2x6_2", 2, "CPU"⟩ ⟨"quota exceeded"⟩
    (by decide) (by decide) (by rfl)
  exact ⟨h.1, h.2.2.1.trans rfl, h.2.2.2.1⟩

/-- C5: the Result Collector records the explicitly absent value `none` —
the result type carries no sentinel number — both when the blob does not
exist and when the fetch or the float parse fails; a value is present iff
the blob exists and its text parses as a float; and collection always
yields one result per run (it never aborts the batch). -/
theorem collector_absent_policy (store : String → BlobResult) :
    (∀ dn, (collectOne store dn).isSome = true ↔
        ∃ s, store (artifactKey dn) = .content s ∧ (parsePyFloat s).isSome = true) ∧
    (∀ dn, store (artifactKey dn) = .absent → collectOne store dn = none) ∧
    (∀ dn, store (artifactKey dn) = .fetchError → collectOne store dn = none) ∧
    (∀ device k, (timesLineSeries store device k).length = nodes_list.length) ∧
    (timesBar store).map Prod.fst = functionals := by
  refine ⟨?_, ?_, ?_, ?_, ?_⟩
  · intro dn
    unfold collectOne
    cases hst : store (artifactKey dn) with
    | absent => simp [hst]
    | fetchError => simp [hst]
    | content s =>
      constructor
      · intro h
        exact ⟨s, rfl, h⟩
      · rintro ⟨s', hs', h⟩
        rw [BlobResult.content.injEq] at hs'
        rw [hs']
        exact h
  · intro dn h; unfold collectOne; rw [h]
  · intro dn h; unfold collectOne; rw [h]
  · intro device k; simp [timesLineSeries]
  · rfl

/-- Witness for C5: an absent blob yields `none`; an existing parsable blob
yields a present value. -/
theorem collector_absent_policy_witness :
    collectOne emptyStore "run_line_CPU_2x2x6_1" = none ∧
    (collectOne (singletonStore "run_line_CPU_2x2x6_1" "1.2345")
      "run_line_CPU_2x2x6_1").isSome = true := by
  constructor
  · exact (collector_absent_policy emptyStore).2.1 "run_line_CPU_2x2x6_1" rfl
  · exact ((collector_absent_policy (singletonStore "run_line_CPU_2x2x6_1" "1.2345")).1
      "run_line_CPU_2x2x6_1").mpr ⟨"1.2345", by decide, by decide⟩

/-- C6: round trip — the key the job's command uploads to and the key the
Result Collector fetches are the same `{run_name}/elapsed_time.txt`; an
artifact holding the decimal text of a scalar value is parsed back to
exactly that value for that exact run name, and is not attributed to any
other run name. -/
theorem artifact_round_trip (name : String) (d : DecimalValue) (hd : d.wf) :
    uploadKey name = artifactKey name ∧
    collectOne (singletonStore name d.render) name = some d.val ∧
    ∀ other, other ≠ name → collectOne (singletonStore name d.render) other = none := by
  refine ⟨rfl, ?_, ?_⟩
  · show (match singletonStore name d.render (artifactKey name) with
      | .absent => none
      | .fetchError => none
      | .content s => parsePyFloat s) = some d.val
    rw [show singletonStore name d.render (artifactKey name) = .content d.render from
      by unfold singletonStore; rw [if_pos (show artifactKey name = uploadKey name from rfl)]]
    exact parse_render d hd
  · intro other hne
    show (match singletonStore name d.render (artifactKey other) with
      | .absent => none
      | .fetchError => none
      | .content s => parsePyFloat s) = none
    rw [show singletonStore name d.render (artifactKey other) = .absent from by
      unfold singletonStore
      rw [if_neg ?_]
      intro heq
      exact hne (string_append_right_cancel heq)]

/-- Witness for C6: the spec's example — run `run_line_CPU_2x2x6_1`,
artifact text `1.2345`, retrieved as the value 1.2345 for that run name and
for no other. -/
theorem artifact_round_trip_witness :
    collectOne (singletonStore "run_line_CPU_2x2x6_1" sampleValue.render)
      "run_line_CPU_2x2x6_1" = some sampleValue.val ∧
    collectOne (singletonStore "run_line_CPU_2x2x6_1" sampleValue.render)
      "run_line_CPU_3x3x9_1" = none := by
  refine ⟨(artifact_round_trip "run_line_CPU_2x2x6_1" sampleValue (by show ∀ x ∈ sampleValue.frac, x < 10; decide)).2.1, ?_⟩
  exact (artifact_round_trip "run_line_CPU_2x2x6_1" sampleValue
    (by show ∀ x ∈ sampleValue.frac, x < 10; decide)).2.2 "run_line_CPU_3x3x9_1" (by decide)

/-- C7: the run matrix is a pure value: the line study is exactly the
cross-product of the k-config labels × device classes × node counts in axis
iteration order, followed by one run per functional at the fixed bar node
count; all 3·1·2 + 2 = 8 run names are pairwise distinct. -/
theorem run_matrix_deterministic_unique :
    lineConfigs =
      [⟨"run_line_CPU_2x2x6_1", 1, "CPU"⟩, ⟨"run_line_CPU_2x2x6_2", 2, "CPU"⟩,
       ⟨"run_line_CPU_3x3x9_1", 1, "CPU"⟩, ⟨"run_line_CPU_3x3x9_2", 2, "CPU"⟩,
       ⟨"run_line_CPU_4x4x12_1", 1, "CPU"⟩, ⟨"run_line_CPU_4x4x12_2", 2, "CPU"⟩] ∧
    barConfigs = [⟨"run_bar_PBE_MySystem", node_for_bar, "GPU"⟩,
                  ⟨"run_bar_HSE06_MySystem", node_for_bar, "GPU"⟩] ∧
    (matrixConfigs.map RunCfg.dirName).Nodup ∧
    lineConfigs.length = k_config_names.length * devices.length * nodes_list.length ∧
    matrixConfigs.length = 8 := by decide

/-- C8: every job specification `submit_batch_job` constructs has exactly
one task group, with task count 1 and task-level max retry count 3; and for
every job of the run matrix, the computed task-parallelism value `ntasks`
appears in none of the specification's numeric fields. -/
theorem jobSpec_one_group_retry3_parallelism_unused :
    (∀ dn nodes device,
      (buildJob dn nodes device).taskGroups.map TaskGroup.taskCount = [1] ∧
      (buildJob dn nodes device).taskGroups.map
        (fun g => g.taskSpec.maxRetryCount) = [3]) ∧
    (matrixConfigs.all fun c =>
      !((buildJob c.dirName c.nodes c.device).numericFields.contains
        (ntasks c.nodes c.device))) = true := by
  exact ⟨fun dn nodes device => ⟨rfl, rfl⟩, by decide⟩

/-- Counterexample for C9: with every artifact absent no study yields any
present value, yet the line-chart step still saves an output file
(`figure_a.png` is written unconditionally) and emits no diagnostic —
refuting the claim that a chart with no present value renders nothing and
emits a diagnostic instead of an output file. -/
theorem line_chart_saved_without_data :
    (matrixConfigs.all fun c => (collectOne emptyStore c.dirName).isNone) = true ∧
    buildLineFigure emptyStore = some ⟨[], true, false⟩ := by decide

/-- C9 (amended): chart building silently skips absent values — every
plotted line's values are exactly the present entries of its series, and
the bar chart's bars are exactly the present (functional, value) pairs;
when the bar study yields no present value, the bar chart renders nothing
and emits a diagnostic instead of an output file; the line figure, however,
is always saved with no diagnostic, even when no line series has any
present value. -/
theorem charts_draw_present_only (store : String → BlobResult) :
    (∀ ts pts, linePoints ts = some pts → pts.map Prod.snd = ts.reduceOption) ∧
    (∃ fig, buildLineFigure store = some fig ∧ fig.savedFile = true ∧ fig.diagnostic = false) ∧
    (buildBarFigure store).bars =
      ((timesBar store).filterMap fun p => p.2.map fun v => (p.1, v)) ∧
    ((buildBarFigure store).bars = [] →
      (buildBarFigure store).savedFile = false ∧ (buildBarFigure store).diagnostic = true) ∧
    ((buildBarFigure store).bars ≠ [] →
      (buildBarFigure store).savedFile = true ∧ (buildBarFigure store).diagnostic = false) := by
  have hbars : (buildBarFigure store).bars =
      ((timesBar store).filterMap fun p => p.2.map fun v => (p.1, v)) := by
    simp only [buildBarFigure]
    by_cases hp : (((timesBar store).filterMap fun p => p.2.map fun v => (p.1, v)).isEmpty) = true
    · rw [if_pos hp]
      exact (List.isEmpty_iff.mp hp).symm
    · rw [if_neg hp]
  refine ⟨?_, ?_, hbars, ?_, ?_⟩
  · intro ts pts h
    rw [linePointsGo_snd ts _ pts h]
    exact filterMap_validIndices ts
  · have hsome : (buildSeries (lineSeriesInputs store)).isSome = true := by
      apply buildSeries_isSome
      intro p hp
      unfold lineSeriesInputs at hp
      rw [List.mem_flatMap] at hp
      obtain ⟨k, hk, hp⟩ := hp
      rw [List.mem_map] at hp
      obtain ⟨dev, hdev, rfl⟩ := hp
      exact linePoints_timesLine_isSome store dev k
    obtain ⟨s, hs⟩ := Option.isSome_iff_exists.mp hsome
    exact ⟨⟨s, true, false⟩, by unfold buildLineFigure; rw [hs]; rfl, rfl, rfl⟩
  · intro hemp
    simp only [buildBarFigure] at hemp ⊢
    by_cases hp : (((timesBar store).filterMap fun p => p.2.map fun v => (p.1, v)).isEmpty) = true
    · rw [if_pos hp]
      exact ⟨rfl, rfl⟩
    · rw [if_neg hp] at hemp
      exact absurd (List.isEmpty_iff.mpr hemp) (by simp [hp])
  · intro hne
    simp only [buildBarFigure] at hne ⊢
    by_cases hp : (((timesBar store).filterMap fun p => p.2.map fun v => (p.1, v)).isEmpty) = true
    · rw [if_pos hp] at hne
      exact absurd rfl hne
    · rw [if_neg hp]
      exact ⟨rfl, rfl⟩

/-- Witness for C9 (amended): a two-entry series with one absent value
plots exactly the present one; the all-absent bar data yields no bar file
and a diagnostic, while one present bar value yields a saved file. -/
theorem charts_draw_present_only_witness :
    ([( (1 : Nat), (1 : ℚ))].map Prod.snd = [some (1 : ℚ), none].reduceOption) ∧
    ((buildBarFigure emptyStore).savedFile = false ∧
      (buildBarFigure emptyStore).diagnostic = true) ∧
    ((buildBarFigure (singletonStore "run_bar_PBE_MySystem" "2.5")).savedFile = true ∧
      (buildBarFigure (singletonStore "run_bar_PBE_MySystem" "2.5")).diagnostic = false) := by
  refine ⟨?_, ?_, ?_⟩
  · exact (charts_draw_present_only emptyStore).1 [some 1, none] [(1, 1)] (by decide)
  · exact (charts_draw_present_only emptyStore).2.2.2.1 (by decide)
  · exact (charts_draw_present_only
      (singletonStore "run_bar_PBE_MySystem" "2.5")).2.2.2.2 (by decide)

/-- C10: for every store and every device/k-config pair, the collected
per-series time list has exactly one entry per configured node count, every
valid (present-value) index is a valid index into `nodes_list`, and the
positional pairing of node counts with values is defined (no IndexError). -/
theorem line_series_node_aligned (store : String → BlobResult) (device k : String) :
    (timesLineSeries store device k).length = nodes_list.length ∧
    (∀ idx ∈ validIndices (timesLineSeries store device k), idx < nodes_list.length) ∧
    (linePoints (timesLineSeries store device k)).isSome = true := by
  refine ⟨timesLineSeries_length store device k, ?_, linePoints_timesLine_isSome store device k⟩
  intro idx hidx
  have h := (validIndices_spec _ idx hidx).1
  rw [timesLineSeries_length store device k] at h
  exact h

/-- Witness for C10: the aligned-length and defined-pairing facts at a
concrete store and series. -/
theorem line_series_node_aligned_witness :
    (timesLineSeries emptyStore "CPU" "2x2x6").length = nodes_list.length ∧
    (linePoints (timesLineSeries emptyStore "CPU" "2x2x6")).isSome = true :=
  ⟨(line_series_node_aligned emptyStore "CPU" "2x2x6").1,
   (line_series_node_aligned emptyStore "CPU" "2x2x6").2.2⟩

end Scale
